import Mathlib

/-!
Shallow embedding of the `facebook2` Python client library
(`facebook/__init__.py`) and proofs about its claims.

Strings and byte strings are modelled as lists of natural numbers
(code points / byte values); Python values that flow through the
library are modelled by `PyVal`; stdlib collaborators that the source
calls but does not define (`hmac`, `json.loads`) are passed as oracle
functions in a `Stdlib` record; the network is an oracle as well.
-/

namespace Facebook2

/-- Byte strings: Python `str`/`bytes` content as lists of code points / byte values. -/
abbrev Bytes := List Nat

/-- Code points of a Lean string literal, for writing ASCII constants. -/
def strB (s : String) : Bytes := s.toList.map Char.toNat

/-- Shallow embedding of the Python values that flow through this library. -/
inductive PyVal where
  | nil : PyVal
  | str : Bytes → PyVal
  | bytes : Bytes → PyVal
  | int : Int → PyVal
  | dict : List (Bytes × PyVal) → PyVal
  deriving Repr

/-- A Python dictionary with string keys, as an insertion-ordered association list
    with unique keys. -/
abbrev Dict := List (Bytes × PyVal)

mutual
/-- Decidable equality for the embedded Python values. -/
def PyVal.decEq : (a b : PyVal) → Decidable (a = b)
  | .nil, .nil => isTrue rfl
  | .str a, .str b =>
    if h : a = b then isTrue (by rw [h]) else isFalse (fun hh => h (PyVal.str.inj hh))
  | .bytes a, .bytes b =>
    if h : a = b then isTrue (by rw [h]) else isFalse (fun hh => h (PyVal.bytes.inj hh))
  | .int a, .int b =>
    if h : a = b then isTrue (by rw [h]) else isFalse (fun hh => h (PyVal.int.inj hh))
  | .dict a, .dict b =>
    match PyVal.decEqEntries a b with
    | isTrue h => isTrue (by rw [h])
    | isFalse h => isFalse (fun hh => h (PyVal.dict.inj hh))
  | .nil, .str _ | .nil, .bytes _ | .nil, .int _ | .nil, .dict _ => isFalse nofun
  | .str _, .nil | .str _, .bytes _ | .str _, .int _ | .str _, .dict _ => isFalse nofun
  | .bytes _, .nil | .bytes _, .str _ | .bytes _, .int _ | .bytes _, .dict _ => isFalse nofun
  | .int _, .nil | .int _, .str _ | .int _, .bytes _ | .int _, .dict _ => isFalse nofun
  | .dict _, .nil | .dict _, .str _ | .dict _, .bytes _ | .dict _, .int _ => isFalse nofun
/-- Decidable equality for embedded dictionary entry lists. -/
def PyVal.decEqEntries : (xs ys : List (Bytes × PyVal)) → Decidable (xs = ys)
  | [], [] => isTrue rfl
  | [], _ :: _ => isFalse nofun
  | _ :: _, [] => isFalse nofun
  | (k1, v1) :: r1, (k2, v2) :: r2 =>
    if hk : k1 = k2 then
      match PyVal.decEq v1 v2, PyVal.decEqEntries r1 r2 with
      | isTrue hv, isTrue hr => isTrue (by rw [hk, hv, hr])
      | isFalse hv, _ => isFalse (fun h => hv (congrArg (fun l => (l.headD (k1, v1)).2) h))
      | _, isFalse hr => isFalse (fun h => hr (congrArg List.tail h))
    else isFalse (fun h => hk (congrArg (fun l => (l.headD (k1, v1)).1) h))
end

instance : DecidableEq PyVal := PyVal.decEq

/-- Association-list lookup, first match: `d[k]` / `d.get(k)`. -/
def assocGet? {β : Type} (l : List (Bytes × β)) (k : Bytes) : Option β :=
  match l with
  | [] => none
  | (k', v) :: rest => if k' = k then some v else assocGet? rest k

/-- Dictionary lookup `d[k]`. -/
def dictGet? (d : Dict) (k : Bytes) : Option PyVal := assocGet? d k

/-- Python `d.get(k, default)`. -/
def dictGetD (d : Dict) (k : Bytes) (dflt : PyVal) : PyVal := (dictGet? d k).getD dflt

/-- Python `d[k] = v`: replace the value in place when the key exists, else append. -/
def dictSet (d : Dict) (k : Bytes) (v : PyVal) : Dict :=
  match d with
  | [] => [(k, v)]
  | (k', v') :: rest => if k' = k then (k', v) :: rest else (k', v') :: dictSet rest k v

/-- Python `d1.update(d2)`: assign every entry of `d2` into `d1` in order. -/
def dictUpdate (d1 d2 : Dict) : Dict := d2.foldl (fun acc kv => dictSet acc kv.1 kv.2) d1

/-- Python truthiness of the embedded values. -/
def pyTruthy : PyVal → Bool
  | .nil => false
  | .str s => !s.isEmpty
  | .bytes b => !b.isEmpty
  | .int n => n != 0
  | .dict d => !d.isEmpty

mutual
/-- Python `repr` of a value: single-quoted strings (the inputs used here contain no
    quotes or escapes), `b'...'` for bytes, and insertion-ordered `\x7b'k': v, ...\x7d`
    for dictionaries. -/
def pyRepr : PyVal → Bytes
  | .nil => strB "None"
  | .str s => 39 :: s ++ [39]
  | .bytes b => 98 :: 39 :: b ++ [39]
  | .int n => strB (toString n)
  | .dict d => 123 :: pyReprEntries d ++ [125]
/-- Python `repr` of dictionary entries, comma-separated in insertion order. -/
def pyReprEntries : List (Bytes × PyVal) → Bytes
  | [] => []
  | (k, v) :: rest =>
    (39 :: k ++ [39]) ++ strB ": " ++ pyRepr v ++
      (if rest.isEmpty then [] else strB ", ") ++ pyReprEntries rest
end

/-- Python `str()` / `format()` of a value: a `str` formats as itself, everything else
    as its `repr`. -/
def pyStr : PyVal → Bytes
  | .str s => s
  | v => pyRepr v

/-! ## base64url (`base64.urlsafe_b64decode` and the wire encoding) -/

/-- Bytes to base64 sextet values: 3 bytes become 4 sextets; a trailing single byte
    becomes 2 sextets and a trailing pair becomes 3, as in `binascii`. -/
def b64EncodeSextets : List Nat → List Nat
  | [] => []
  | [b1] => [b1 / 4, b1 % 4 * 16]
  | [b1, b2] => [b1 / 4, b1 % 4 * 16 + b2 / 16, b2 % 16 * 4]
  | b1 :: b2 :: b3 :: rest =>
    b1 / 4 :: (b1 % 4 * 16 + b2 / 16) :: (b2 % 16 * 4 + b3 / 64) :: b3 % 64 ::
      b64EncodeSextets rest

/-- Sextet values back to bytes; `none` when the sextet count is ≡ 1 (mod 4), which no
    base64 encoding produces and which `base64` rejects. -/
def sextetsToBytes : List Nat → Option (List Nat)
  | [] => some []
  | [_] => none
  | [s1, s2] => some [s1 * 4 + s2 / 16]
  | [s1, s2, s3] => some [s1 * 4 + s2 / 16, s2 % 16 * 16 + s3 / 4]
  | s1 :: s2 :: s3 :: s4 :: rest =>
    (sextetsToBytes rest).map
      (fun bs => (s1 * 4 + s2 / 16) :: (s2 % 16 * 16 + s3 / 4) :: (s3 % 4 * 64 + s4) :: bs)

/-- The base64url alphabet: sextet value to character code. -/
def sextetToChar (s : Nat) : Nat :=
  if s < 26 then 65 + s
  else if s < 52 then 97 + (s - 26)
  else if s < 62 then 48 + (s - 52)
  else if s = 62 then 45
  else 95

/-- Character code back to sextet value; `none` outside the base64url alphabet. -/
def charToSextet? (c : Nat) : Option Nat :=
  if 65 ≤ c ∧ c ≤ 90 then some (c - 65)
  else if 97 ≤ c ∧ c ≤ 122 then some (c - 97 + 26)
  else if 48 ≤ c ∧ c ≤ 57 then some (c - 48 + 52)
  else if c = 45 then some 62
  else if c = 95 then some 63
  else none

/-- base64url encoding without padding — the signed-request wire format. -/
def b64urlEncodeNoPad (bs : List Nat) : Bytes := (b64EncodeSextets bs).map sextetToChar

/-- The padding repair from the source: right-pad with `'='` (code 61) until the length
    is a multiple of 4. -/
def padRepair (s : Bytes) : Bytes := s ++ List.replicate ((4 - s.length % 4) % 4) 61

/-- Decode each character through `f`, failing when any single character fails — the
    effect of mapping a partial character table over a string. -/
def mapOpt (f : Nat → Option Nat) : List Nat → Option (List Nat)
  | [] => some []
  | c :: rest =>
    match f c, mapOpt f rest with
    | some v, some vs => some (v :: vs)
    | _, _ => none

/-- Model of `base64.urlsafe_b64decode`: strip trailing `'='` padding (at most 2
    characters), translate the base64url alphabet to sextets, reject other characters,
    and regroup sextets into bytes. -/
def b64urlDecode (s : Bytes) : Option (List Nat) :=
  let core := s.takeWhile (fun c => c ≠ 61)
  let pad := s.drop core.length
  if pad.length ≤ 2 ∧ pad.all (fun c => c = 61) then
    match mapOpt charToSextet? core with
    | some sextets => sextetsToBytes sextets
    | none => none
  else none

/-! ## Python exceptions and stdlib collaborators -/

/-- The Python exceptions the embedded code can raise.  `valueError` carries the message;
    the other kinds carry none.  `base64` decoding failures are modelled as the
    `TypeError` path the source's handler expects (Python 2 `base64` semantics, which the
    package's supported interpreter list includes); `str.encode('ascii')` on non-ASCII
    input raises `unicodeEncodeError`, and attribute access on a value lacking that
    attribute (such as `.encode` on Python 3 `bytes`, or `.upper` on a non-string)
    raises `attributeError`. -/
inductive PyErr where
  | valueError : String → PyErr
  | unicodeEncodeError : PyErr
  | attributeError : PyErr
  | keyError : PyErr
  | indexError : PyErr
  | unboundLocalError : PyErr
  | assertionError : PyErr
  deriving DecidableEq, Repr

/-- Collaborators from outside the repository, passed as oracles:
    `hmacSha256 key msg` models `hmac.new(key, msg, digestmod=hashlib.sha256).digest()`;
    `jsonLoads bs` models `json.loads` restricted to JSON objects — it returns the parsed
    claims mapping, or `none` when the bytes do not parse as a JSON object (in which case
    the source's `json.loads` raises an uncaught `ValueError`, whose interpreter-supplied
    message we abstract as "json decode error"). -/
structure Stdlib where
  hmacSha256 : List Nat → List Nat → List Nat
  jsonLoads : List Nat → Option Dict

/-- Python `s.encode('ascii')`: succeeds on a `str` of ASCII code points; raises
    `UnicodeEncodeError` on a non-ASCII `str` and `AttributeError` on any non-`str`
    (Python 3 `bytes` has no `encode`). -/
def pyEncodeAscii : PyVal → Except PyErr (List Nat)
  | .str s => if s.all (fun c => c < 128) then .ok s else .error .unicodeEncodeError
  | _ => .error .attributeError

/-- Python `v.upper()` on a looked-up value: ASCII uppercasing on a `str`,
    `AttributeError` otherwise. -/
def pyStrUpper : PyVal → Except PyErr Bytes
  | .str s => .ok (s.map (fun c => if 97 ≤ c ∧ c ≤ 122 then c - 32 else c))
  | _ => .error .attributeError

/-! ## `GraphAPIError` (source lines 277–299) -/

/-- The state an exception `GraphAPIError(result)` carries after `__init__`. -/
structure GraphAPIErr where
  result : PyVal
  type : PyVal
  message : PyVal
  deriving DecidableEq, Repr

/-- `result[key]` under a bare `except`: any lookup failure — missing key (`KeyError`)
    or a non-dictionary receiver (`TypeError`) — is caught, yielding `none`. -/
def tryItem (v : PyVal) (k : Bytes) : Option PyVal :=
  match v with
  | .dict d => dictGet? d k
  | _ => none

/-- `GraphAPIError.__init__` (source lines 277–299): `type` is `result["error_code"]`
    when that lookup succeeds, else `""`; `message` tries `result["error_description"]`,
    else `result["error"]["message"]`, else `result["error_msg"]`, else is the `result`
    value itself. -/
def GraphAPIError.init (result : PyVal) : GraphAPIErr :=
  let type :=
    match tryItem result (strB "error_code") with
    | some v => v
    | none => .str []
  let message :=
    match tryItem result (strB "error_description") with
    | some m => m
    | none =>
      match tryItem result (strB "error") with
      | some e =>
        match tryItem e (strB "message") with
        | some m => m
        | none =>
          match tryItem result (strB "error_msg") with
          | some m => m
          | none => result
      | none =>
        match tryItem result (strB "error_msg") with
        | some m => m
        | none => result
  { result := result, type := type, message := message }

/-! ## `GraphAPI` (source lines 58–274) -/

/-- The state of a `GraphAPI` instance. -/
structure GraphAPI where
  access_token : PyVal
  timeout : PyVal
  version : Bytes
  deriving DecidableEq, Repr

/-- The allow-listed API versions from `GraphAPI.__init__`. -/
def valid_api_versions : List Bytes := [strB "1.0", strB "2.0", strB "2.1", strB "2.2"]

/-- `GraphAPI.__init__(access_token, timeout, version)` (source lines 88–99), taking the
    version already as a string: an allow-listed version is stored with a `"v"` prefix;
    anything else raises `GraphAPIError`. -/
def GraphAPI.init (access_token timeout : PyVal) (version : Bytes) :
    Except GraphAPIErr GraphAPI :=
  if valid_api_versions.contains version then
    .ok { access_token := access_token, timeout := timeout, version := strB "v" ++ version }
  else
    .error (GraphAPIError.init (.str (strB "Valid API versions are 1.0, 2.0, 2.1, 2.2")))

/-- The HTTP call `GraphAPI.request` hands to the transport. -/
structure RequestSpec where
  method : Bytes
  url : Bytes
  params : Dict
  data : Option Dict
  files : Option Dict
  deriving DecidableEq, Repr

/-- Steps 1–3 of `GraphAPI.request` (source lines 223–238): access-token injection into
    `post_args` when present else into `args`, URL construction by formatting the version
    and the `path` argument (a non-`str` path is formatted via `str()`), and the HTTP
    call description with method defaulting to `"GET"`. -/
def GraphAPI.request_spec (g : GraphAPI) (path : PyVal) (args : Option Dict)
    (post_args : Option Dict) (files : Option Dict) (method : Option Bytes) :
    RequestSpec :=
  let args0 := args.getD []
  let injected : Dict × Option Dict :=
    if pyTruthy g.access_token then
      match post_args with
      | some pa => (args0, some (dictSet pa (strB "access_token") g.access_token))
      | none => (dictSet args0 (strB "access_token") g.access_token, none)
    else (args0, post_args)
  { method := method.getD (strB "GET")
    url := strB "https://graph.facebook.com/" ++ g.version ++ 47 :: pyStr path
    params := injected.1
    data := injected.2
    files := files }

/-- Python `",".join(ids)`. -/
def joinComma : List Bytes → Bytes
  | [] => []
  | [x] => x
  | x :: rest => x ++ 44 :: joinComma rest

/-- `GraphAPI.get_objects(ids, args)` (source lines 105–112): sets
    `args["ids"] = ",".join(ids)` and then calls `self.request(args)` — the dictionary is
    passed as the `path` positional argument of `request`, and no `args` mapping is
    supplied. -/
def GraphAPI.get_objects_request (g : GraphAPI) (ids : List Bytes) (args : Dict) :
    RequestSpec :=
  let args := dictSet args (strB "ids") (.str (joinComma ids))
  g.request_spec (.dict args) none none none none

/-- `GraphAPI.put_object(parent_object, connection_name, data)` (source lines 118–144):
    `assert self.access_token` fires before anything else, so with a falsy token the call
    raises `AssertionError` and no request is built; otherwise it POSTs to
    `parent_object/connection_name` with `data` as body arguments. -/
def GraphAPI.put_object (g : GraphAPI) (parent_object connection_name : Bytes)
    (data : Dict) : Except PyErr RequestSpec :=
  if pyTruthy g.access_token then
    .ok (g.request_spec (.str (parent_object ++ 47 :: connection_name)) none (some data)
      none (some (strB "POST")))
  else .error .assertionError

/-- Whether a byte string starts with the given needle. -/
def listStartsWith : Bytes → Bytes → Bool
  | _, [] => true
  | [], _ :: _ => false
  | c :: rest, d :: ds => c = d && listStartsWith rest ds

/-- Python `needle in hay` on strings: substring containment. -/
def isSubstring (needle hay : Bytes) : Bool :=
  match hay with
  | [] => needle.isEmpty
  | _ :: rest => listStartsWith hay needle || isSubstring needle rest

/-- The transport's view of an HTTP response: status code, `content-type` header, the
    value the body parses to as JSON when it does (`response.json()`), the raw content
    bytes, the final URL, and `parse_qs` of the body text — the last two parsers are
    stdlib collaborators, so their results are carried as fields. -/
structure HttpResponse where
  status : Nat
  contentType : Bytes
  jsonBody : Option PyVal
  content : Bytes
  url : Bytes
  textQS : List (Bytes × List Bytes)
  deriving DecidableEq, Repr

/-- How `GraphAPI.request` ends once a response arrived. -/
inductive RequestOutcome where
  | ok : PyVal → RequestOutcome
  | apiError : GraphAPIErr → RequestOutcome
  | raised : PyErr → RequestOutcome
  deriving DecidableEq, Repr

/-- Step 5 of `GraphAPI.request` (source lines 243–260): classify the response by
    content type — JSON body, image payload, legacy token-bearing query-string body —
    and otherwise raise `GraphAPIError('Maintype was not text, image, or querystring')`.
    The HTTP status code is never consulted. -/
def GraphAPI.classify (response : HttpResponse) : RequestOutcome :=
  if isSubstring (strB "json") response.contentType then
    match response.jsonBody with
    | some v => .ok v
    | none => .raised (.valueError "json decode error")
  else if isSubstring (strB "image/") response.contentType then
    .ok (.dict [(strB "data", .bytes response.content),
                (strB "mime-type", .str response.contentType),
                (strB "url", .str response.url)])
  else
    match assocGet? response.textQS (strB "access_token") with
    | some vs =>
      match vs.head? with
      | some v =>
        match assocGet? response.textQS (strB "expires") with
        | some es =>
          match es.head? with
          | some e => .ok (.dict [(strB "access_token", .str v), (strB "expires", .str e)])
          | none => .raised .indexError
        | none => .ok (.dict [(strB "access_token", .str v)])
      | none => .raised .indexError
    | none =>
      .apiError (GraphAPIError.init
        (.str (strB "Maintype was not text, image, or querystring")))

/-- Steps 5–6 of `GraphAPI.request` (source lines 243–264): after classification,
    `if result and isinstance(result, dict) and result.get("error")` raises
    `GraphAPIError(result)` — also on a successful HTTP status. -/
def GraphAPI.request_handle (response : HttpResponse) : RequestOutcome :=
  match GraphAPI.classify response with
  | .ok result =>
    match result with
    | .dict d =>
      if pyTruthy (.dict d) && pyTruthy (dictGetD d (strB "error") .nil) then
        .apiError (GraphAPIError.init (.dict d))
      else .ok (.dict d)
    | v => .ok v
  | o => o

/-! ## `Auth` (source lines 306–438) -/

/-- The state of an `Auth` instance.  `app_secret` is a `PyVal` because
    `parse_signed_request` rebinds it from `str` to `bytes`. -/
structure Auth where
  app_id : Bytes
  app_secret : PyVal
  redirect_uri : Bytes
  deriving DecidableEq, Repr

/-- `Auth.__init__(app_id, app_secret, redirect_uri)` (source lines 312–315):
    stores all three arguments verbatim. -/
def Auth.init (app_id app_secret redirect_uri : Bytes) : Auth :=
  { app_id := app_id, app_secret := .str app_secret, redirect_uri := redirect_uri }

/-- Python `s.split('.', 1)`: split on the first `'.'` (code 46) only; a dot-free
    string yields a single-element list. -/
def splitDot1 : Bytes → List Bytes
  | [] => [[]]
  | c :: rest =>
    if c = 46 then [[], rest]
    else
      match splitDot1 rest with
      | [] => [[c]]
      | first :: others => (c :: first) :: others

/-- `Auth.parse_signed_request` (source lines 355–392), returning the outcome paired with
    the post-call object state.  Mirrors the source statement by statement:
    unpacking `encoded_sig, payload = map(str, signed_request.split('.', 1))` raises the
    interpreter's unpacking `ValueError` when there is no dot (the `except IndexError`
    arm that would produce "signed_request malformed" never fires, because unpacking a
    one-element sequence raises `ValueError`, not `IndexError`); base64 decode failures
    raise `TypeError`, caught and re-raised as the "corrupted payload" `ValueError`;
    then `json.loads`, the case-insensitive algorithm check, the `self.app_secret`
    rebinding to its ASCII encoding, and the HMAC comparison over the undecoded payload
    segment. -/
def Auth.parse_signed_request (lib : Stdlib) (auth : Auth) (signed_request : Bytes) :
    Except PyErr Dict × Auth :=
  match splitDot1 signed_request with
  | [_] => (.error (.valueError "not enough values to unpack (expected 2, got 1)"), auth)
  | [] => (.error (.valueError "not enough values to unpack (expected 2, got 1)"), auth)
  | encoded_sig :: payload :: _ =>
    match b64urlDecode (padRepair encoded_sig) with
    | none => (.error (.valueError "signed_request had corrupted payload"), auth)
    | some sig =>
      match b64urlDecode (padRepair payload) with
      | none => (.error (.valueError "signed_request had corrupted payload"), auth)
      | some data_bytes =>
        match lib.jsonLoads data_bytes with
        | none => (.error (.valueError "json decode error"), auth)
        | some data =>
          match pyStrUpper (dictGetD data (strB "algorithm") (.str [])) with
          | .error e => (.error e, auth)
          | .ok alg =>
            if alg ≠ strB "HMAC-SHA256" then
              (.error (.valueError "signed_request used unknown algorithm"), auth)
            else
              match pyEncodeAscii auth.app_secret with
              | .error e => (.error e, auth)
              | .ok secretBytes =>
                let auth := { auth with app_secret := .bytes secretBytes }
                if payload.all (fun c => c < 128) then
                  let expected_sig := lib.hmacSha256 secretBytes payload
                  if sig = expected_sig then (.ok data, auth)
                  else (.error (.valueError "signed_request had signature mismatch"), auth)
                else (.error .unicodeEncodeError, auth)

/-- How a call to `Auth.get_user_from_cookie` ends: a normal return (`None` or a dict),
    an `AuthError` wrapping the `ValueError` from `parse_signed_request`, or an uncaught
    exception. -/
inductive CookieOutcome where
  | ret : Option Dict → CookieOutcome
  | authError : PyErr → CookieOutcome
  | raised : PyErr → CookieOutcome
  deriving DecidableEq, Repr

/-- `Auth.get_user_from_cookie(cookies, validate=False)` (source lines 317–353), with the
    `get_access_token_from_code` network exchange passed as an oracle (its
    `GraphAPIError` failure modelled as `.error ()`).  Mirrors the source: look up
    `fbsr_{app_id}` with default `""`; falsy cookie returns `None`; `ValueError` from
    parsing re-raises as `AuthError`; a falsy parsed dict returns `None`; only the
    `validate` branch binds the local `result`, yet `user_data.update(result)` runs
    unconditionally, so the non-validate path raises `UnboundLocalError`; on the validate
    path an exchange failure returns `None`, and success merges `result` into `user_data`
    (a local that is then discarded) and returns `result` itself. -/
def Auth.get_user_from_cookie (lib : Stdlib) (exchange : PyVal → Except Unit Dict)
    (auth : Auth) (cookies : List (Bytes × Bytes)) (validate : Bool) :
    CookieOutcome × Auth :=
  let cookie := (assocGet? cookies (strB "fbsr_" ++ auth.app_id)).getD []
  if cookie.isEmpty then (.ret none, auth)
  else
    match Auth.parse_signed_request lib auth cookie with
    | (.error (.valueError m), auth') => (.authError (.valueError m), auth')
    | (.error e, auth') => (.raised e, auth')
    | (.ok user_data, auth') =>
      if user_data.isEmpty then (.ret none, auth')
      else
        if validate then
          match dictGet? user_data (strB "code") with
          | none => (.raised .keyError, auth')
          | some codeVal =>
            match exchange codeVal with
            | .error _ => (.ret none, auth')
            | .ok result =>
              let _merged := dictUpdate user_data result
              (.ret (some result), auth')
        else (.raised .unboundLocalError, auth')

/-! ## base64url round-trip lemmas -/

/-- Decoding a character of the base64url alphabet recovers its sextet value. -/
theorem charToSextet_sextetToChar : ∀ s, s < 64 → charToSextet? (sextetToChar s) = some s := by
  decide

/-- Alphabet characters are not `'='` (61), not `'.'` (46), and are ASCII. -/
theorem sextetToChar_props : ∀ s, s < 64 →
    sextetToChar s ≠ 61 ∧ sextetToChar s ≠ 46 ∧ sextetToChar s < 128 := by
  decide

/-- All sextet values produced by encoding bytes are below 64. -/
theorem b64EncodeSextets_lt :
    ∀ bs : List Nat, (∀ b ∈ bs, b < 256) → ∀ x ∈ b64EncodeSextets bs, x < 64
  | [], _ => by simp [b64EncodeSextets]
  | [b1], h => by
    have hb1 : b1 < 256 := h b1 (by simp)
    simp only [b64EncodeSextets, List.mem_cons, List.not_mem_nil, or_false]
    rintro x (rfl | rfl) <;> omega
  | [b1, b2], h => by
    have hb1 : b1 < 256 := h b1 (by simp)
    have hb2 : b2 < 256 := h b2 (by simp)
    simp only [b64EncodeSextets, List.mem_cons, List.not_mem_nil, or_false]
    rintro x (rfl | rfl | rfl) <;> omega
  | b1 :: b2 :: b3 :: rest, h => by
    have hb1 : b1 < 256 := h b1 (by simp)
    have hb2 : b2 < 256 := h b2 (by simp)
    have hb3 : b3 < 256 := h b3 (by simp)
    have ih := b64EncodeSextets_lt rest (fun b hb => h b (by simp [hb]))
    simp only [b64EncodeSextets, List.mem_cons]
    rintro x (rfl | rfl | rfl | rfl | hx)
    · omega
    · omega
    · omega
    · omega
    · exact ih x hx

/-- Regrouping the encoded sextets recovers the original bytes. -/
theorem sextetsToBytes_b64EncodeSextets :
    ∀ bs : List Nat, (∀ b ∈ bs, b < 256) →
      sextetsToBytes (b64EncodeSextets bs) = some bs
  | [], _ => rfl
  | [b1], h => by
    simp only [b64EncodeSextets, sextetsToBytes, Option.some.injEq, List.cons.injEq,
      and_true]
    omega
  | [b1, b2], h => by
    have hb2 : b2 < 256 := h b2 (by simp)
    simp only [b64EncodeSextets, sextetsToBytes, Option.some.injEq, List.cons.injEq,
      and_true]
    omega
  | b1 :: b2 :: b3 :: rest, h => by
    have hb2 : b2 < 256 := h b2 (by simp)
    have hb3 : b3 < 256 := h b3 (by simp)
    have ih := sextetsToBytes_b64EncodeSextets rest (fun b hb => h b (by simp [hb]))
    simp only [b64EncodeSextets, sextetsToBytes, ih, Option.map_some, Option.map_some',
      Option.some.injEq, List.cons.injEq, and_true]
    omega

/-- The encoded sextet count is never ≡ 1 (mod 4). -/
theorem b64EncodeSextets_length_mod :
    ∀ bs : List Nat, (b64EncodeSextets bs).length % 4 ≠ 1
  | [] => by simp [b64EncodeSextets]
  | [b1] => by simp [b64EncodeSextets]
  | [b1, b2] => by simp [b64EncodeSextets]
  | b1 :: b2 :: b3 :: rest => by
    have ih := b64EncodeSextets_length_mod rest
    simp only [b64EncodeSextets, List.length_cons]
    omega

/-- `takeWhile` passes over a block that satisfies the predicate wholesale. -/
theorem takeWhile_append_all {p : Nat → Bool} :
    ∀ l1 l2 : List Nat, (∀ a ∈ l1, p a = true) →
      (l1 ++ l2).takeWhile p = l1 ++ l2.takeWhile p
  | [], l2, _ => by simp
  | a :: l1, l2, h => by
    have ha : p a = true := h a (by simp)
    simp only [List.cons_append, List.takeWhile_cons, ha]
    simp [takeWhile_append_all l1 l2 (fun b hb => h b (by simp [hb]))]

/-- Mapping the alphabet back to sextets inverts the character table. -/
theorem mapOpt_charToSextet_map :
    ∀ sx : List Nat, (∀ s ∈ sx, s < 64) →
      mapOpt charToSextet? (sx.map sextetToChar) = some sx
  | [], _ => rfl
  | s :: sx, h => by
    have hs := charToSextet_sextetToChar s (h s (by simp))
    have ih := mapOpt_charToSextet_map sx (fun t ht => h t (by simp [ht]))
    simp [mapOpt, hs, ih]

/-- The source's padding repair followed by `urlsafe_b64decode` inverts the unpadded
    base64url encoding of any byte string. -/
theorem b64urlDecode_padRepair_encode (bs : List Nat) (h : ∀ b ∈ bs, b < 256) :
    b64urlDecode (padRepair (b64urlEncodeNoPad bs)) = some bs := by
  have hlt := b64EncodeSextets_lt bs h
  have hne61 : ∀ c ∈ b64urlEncodeNoPad bs, (fun c => decide (c ≠ 61)) c = true := by
    intro c hc
    simp only [b64urlEncodeNoPad, List.mem_map] at hc
    obtain ⟨s, hs, rfl⟩ := hc
    simpa using (sextetToChar_props s (hlt s hs)).1
  unfold padRepair b64urlDecode
  rw [takeWhile_append_all _ _ hne61]
  have hrep : (List.replicate ((4 - (b64urlEncodeNoPad bs).length % 4) % 4) 61).takeWhile
      (fun c => decide (c ≠ 61)) = [] := by
    cases hn : (4 - (b64urlEncodeNoPad bs).length % 4) % 4 with
    | zero => simp
    | succ m => simp [List.replicate_succ]
  rw [hrep, List.append_nil]
  simp only [List.drop_left]
  have hlen : (b64urlEncodeNoPad bs).length % 4 ≠ 1 := by
    simpa [b64urlEncodeNoPad] using b64EncodeSextets_length_mod bs
  have hpadlen : (4 - (b64urlEncodeNoPad bs).length % 4) % 4 ≤ 2 := by omega
  have hcond : (List.replicate ((4 - (b64urlEncodeNoPad bs).length % 4) % 4) 61).length ≤ 2 ∧
      (List.replicate ((4 - (b64urlEncodeNoPad bs).length % 4) % 4) 61).all
        (fun c => decide (c = 61)) = true := by
    constructor
    · simpa using hpadlen
    · simp [List.all_eq_true]
  rw [if_pos hcond]
  have hmap : mapOpt charToSextet? (b64urlEncodeNoPad bs) = some (b64EncodeSextets bs) :=
    mapOpt_charToSextet_map _ hlt
  rw [hmap]
  exact sextetsToBytes_b64EncodeSextets bs h

/-! ## Splitting lemmas and the signed-request round trip -/

/-- A dot-free string is not split by `split('.', 1)`. -/
theorem splitDot1_no_dot : ∀ s : Bytes, ¬ 46 ∈ s → splitDot1 s = [s]
  | [], _ => rfl
  | c :: rest, h => by
    have hc : ¬ c = 46 := fun hc => h (by simp [hc])
    have ih := splitDot1_no_dot rest (fun hm => h (by simp [hm]))
    simp [splitDot1, hc, ih]

/-- Splitting `a ++ "." ++ b` at the first dot, when `a` is dot-free, yields the two
    segments. -/
theorem splitDot1_append : ∀ a b : Bytes, ¬ 46 ∈ a → splitDot1 (a ++ 46 :: b) = [a, b]
  | [], b, _ => by simp [splitDot1]
  | c :: a, b, h => by
    have hc : ¬ c = 46 := fun hc => h (by simp [hc])
    have ih := splitDot1_append a b (fun hm => h (by simp [hm]))
    simp [splitDot1, hc, ih]

/-- Unpadded base64url encodings contain no dot. -/
theorem b64urlEncodeNoPad_no_dot (bs : List Nat) (h : ∀ b ∈ bs, b < 256) :
    ¬ 46 ∈ b64urlEncodeNoPad bs := by
  intro hm
  simp only [b64urlEncodeNoPad, List.mem_map] at hm
  obtain ⟨s, hs, heq⟩ := hm
  exact (sextetToChar_props s (b64EncodeSextets_lt bs h s hs)).2.1 heq

/-- Unpadded base64url encodings are ASCII. -/
theorem b64urlEncodeNoPad_ascii (bs : List Nat) (h : ∀ b ∈ bs, b < 256) :
    (b64urlEncodeNoPad bs).all (fun c => c < 128) = true := by
  simp only [b64urlEncodeNoPad, List.all_eq_true, List.mem_map, decide_eq_true_eq,
    forall_exists_index, and_imp]
  rintro c s hs rfl
  exact (sextetToChar_props s (b64EncodeSextets_lt bs h s hs)).2.2

/-- C1.  For every app secret and every well-formed signed request of shape
    `base64url(sig) ++ "." ++ base64url(payload)` whose signature bytes equal
    HMAC-SHA256 (keyed by the secret) over the undecoded original payload segment
    characters, and whose decoded payload is a JSON mapping whose `algorithm` field
    upper-cases to `HMAC-SHA256`, `parse_signed_request` returns exactly the decoded
    claims mapping. -/
theorem parse_signed_request_roundtrip (lib : Stdlib) (auth : Auth) (secret : Bytes)
    (sigB payloadB : List Nat) (claims : Dict)
    (hsecret : auth.app_secret = .str secret)
    (hascii : secret.all (fun c => c < 128) = true)
    (hsig256 : ∀ b ∈ sigB, b < 256)
    (hpay256 : ∀ b ∈ payloadB, b < 256)
    (hjson : lib.jsonLoads payloadB = some claims)
    (halg : pyStrUpper (dictGetD claims (strB "algorithm") (.str [])) =
      .ok (strB "HMAC-SHA256"))
    (hsig : sigB = lib.hmacSha256 secret (b64urlEncodeNoPad payloadB)) :
    (Auth.parse_signed_request lib auth
        (b64urlEncodeNoPad sigB ++ 46 :: b64urlEncodeNoPad payloadB)).1 = .ok claims := by
  have hd := splitDot1_append (b64urlEncodeNoPad sigB) (b64urlEncodeNoPad payloadB)
    (b64urlEncodeNoPad_no_dot sigB hsig256)
  have h1 := b64urlDecode_padRepair_encode sigB hsig256
  have h2 := b64urlDecode_padRepair_encode payloadB hpay256
  have hp_ascii := b64urlEncodeNoPad_ascii payloadB hpay256
  simp only [Auth.parse_signed_request, hd, h1, h2, hjson, halg, hsecret, pyEncodeAscii,
    hascii, if_true, hp_ascii, ne_eq, not_true_eq_false, if_false, ite_false, ite_true,
    reduceIte, ← hsig]

/-! ## Concrete fixtures for witnesses and counterexamples -/

/-- A fixed claims mapping: `\x7b"algorithm": "HMAC-SHA256"\x7d`. -/
def claimsW : Dict := [(strB "algorithm", .str (strB "HMAC-SHA256"))]

/-- Oracle fixture: a constant HMAC digest `[7]` and a JSON parser returning `claimsW`. -/
def libW : Stdlib :=
  { hmacSha256 := fun _ _ => [7], jsonLoads := fun _ => some claimsW }

/-- Oracle fixture whose parsed payload names a different algorithm. -/
def libAlg : Stdlib :=
  { hmacSha256 := fun _ _ => [7]
    jsonLoads := fun _ => some [(strB "algorithm", .str (strB "MD5"))] }

/-- Oracle fixture whose HMAC digest `[9]` matches no signature used in the fixtures. -/
def libMismatch : Stdlib :=
  { hmacSha256 := fun _ _ => [9], jsonLoads := fun _ => some claimsW }

/-- A concrete `Auth` instance. -/
def authW : Auth := Auth.init (strB "123") (strB "topsecret") (strB "http://localhost.dev/")

/-- Witness for C1: parsing the concrete signed request `"Bw.AA"` — signature bytes `[7]`
    (the oracle's digest of the payload segment), payload bytes `[0]`, claims mapping
    `claimsW` — returns the claims mapping. -/
theorem parse_signed_request_roundtrip_witness :
    (Auth.parse_signed_request libW authW
        (b64urlEncodeNoPad [7] ++ 46 :: b64urlEncodeNoPad [0])).1 = .ok claimsW :=
  parse_signed_request_roundtrip libW authW (strB "topsecret") [7] [0] claimsW rfl
    (by decide) (by decide) (by decide) rfl rfl rfl

/-- C2 counterexample: an input with no dot fails with the interpreter's tuple-unpacking
    `ValueError` — `encoded_sig, payload = map(str, signed_request.split('.', 1))`
    unpacks a one-element list — and not with the "signed_request malformed" error the
    claim names (that message sits behind an `except IndexError` arm that unpacking never
    triggers). -/
theorem parse_signed_request_malformed_counterexample :
    (Auth.parse_signed_request libW authW (strB "abc")).1 =
      .error (.valueError "not enough values to unpack (expected 2, got 1)") ∧
    PyErr.valueError "not enough values to unpack (expected 2, got 1)" ≠
      PyErr.valueError "signed_request malformed" := by
  exact ⟨rfl, by decide⟩

/-- C2 as amended.  An input with fewer than two dot-separated parts fails with the
    interpreter's tuple-unpacking `ValueError` (the "malformed" message is unreachable);
    a part that fails base64url decoding after padding repair fails with the "corrupted
    payload" error; a decoded payload whose `algorithm` field upper-cases to anything but
    `HMAC-SHA256` fails with the "unknown algorithm" error; a recomputed HMAC that
    differs from the decoded signature fails with the "signature mismatch" error. -/
theorem parse_signed_request_error_kinds (lib : Stdlib) (auth : Auth) :
    (∀ s : Bytes, ¬ 46 ∈ s →
      (Auth.parse_signed_request lib auth s).1 =
        .error (.valueError "not enough values to unpack (expected 2, got 1)")) ∧
    (∀ esig payload : Bytes, ¬ 46 ∈ esig →
      (b64urlDecode (padRepair esig) = none ∨ b64urlDecode (padRepair payload) = none) →
      (Auth.parse_signed_request lib auth (esig ++ 46 :: payload)).1 =
        .error (.valueError "signed_request had corrupted payload")) ∧
    (∀ esig payload sg db data alg, ¬ 46 ∈ esig →
      b64urlDecode (padRepair esig) = some sg →
      b64urlDecode (padRepair payload) = some db →
      lib.jsonLoads db = some data →
      pyStrUpper (dictGetD data (strB "algorithm") (.str [])) = .ok alg →
      alg ≠ strB "HMAC-SHA256" →
      (Auth.parse_signed_request lib auth (esig ++ 46 :: payload)).1 =
        .error (.valueError "signed_request used unknown algorithm")) ∧
    (∀ esig payload sg db data secret, ¬ 46 ∈ esig →
      b64urlDecode (padRepair esig) = some sg →
      b64urlDecode (padRepair payload) = some db →
      lib.jsonLoads db = some data →
      pyStrUpper (dictGetD data (strB "algorithm") (.str [])) =
        .ok (strB "HMAC-SHA256") →
      auth.app_secret = .str secret →
      secret.all (fun c => c < 128) = true →
      payload.all (fun c => c < 128) = true →
      sg ≠ lib.hmacSha256 secret payload →
      (Auth.parse_signed_request lib auth (esig ++ 46 :: payload)).1 =
        .error (.valueError "signed_request had signature mismatch")) := by
  refine ⟨?_, ?_, ?_, ?_⟩
  · intro s hs
    simp only [Auth.parse_signed_request, splitDot1_no_dot s hs]
  · intro esig payload hdot hdec
    have hd := splitDot1_append esig payload hdot
    rcases hdec with hdec | hdec
    · simp only [Auth.parse_signed_request, hd, hdec]
    · cases hsig : b64urlDecode (padRepair esig) with
      | none => simp only [Auth.parse_signed_request, hd, hsig]
      | some sg => simp only [Auth.parse_signed_request, hd, hsig, hdec]
  · intro esig payload sg db data alg hdot h1 h2 hjson halg hne
    have hd := splitDot1_append esig payload hdot
    simp only [Auth.parse_signed_request, hd, h1, h2, hjson, halg, ne_eq, hne,
      not_false_eq_true, if_true, ite_true, reduceIte]
  · intro esig payload sg db data secret hdot h1 h2 hjson halg hsecret hascii hpascii hne
    have hd := splitDot1_append esig payload hdot
    simp only [Auth.parse_signed_request, hd, h1, h2, hjson, halg, hsecret, pyEncodeAscii,
      hascii, hpascii, ne_eq, not_true_eq_false, if_false, ite_false, if_true, ite_true,
      reduceIte, if_neg hne]

/-- Witness for the amended C2: each of the four error branches on a concrete input —
    `"x"` (no dot), `"a.AA"` (signature segment of length ≡ 1 mod 4, undecodable after
    padding repair), `"Bw.AA"` against a payload naming algorithm `MD5`, and `"Bw.AA"`
    against an oracle whose recomputed digest `[9]` differs from the decoded signature
    `[7]`. -/
theorem parse_signed_request_error_kinds_witness :
    (Auth.parse_signed_request libW authW (strB "x")).1 =
      .error (.valueError "not enough values to unpack (expected 2, got 1)") ∧
    (Auth.parse_signed_request libW authW (strB "a" ++ 46 :: strB "AA")).1 =
      .error (.valueError "signed_request had corrupted payload") ∧
    (Auth.parse_signed_request libAlg authW (strB "Bw" ++ 46 :: strB "AA")).1 =
      .error (.valueError "signed_request used unknown algorithm") ∧
    (Auth.parse_signed_request libMismatch authW (strB "Bw" ++ 46 :: strB "AA")).1 =
      .error (.valueError "signed_request had signature mismatch") :=
  ⟨(parse_signed_request_error_kinds libW authW).1 (strB "x") (by decide),
   (parse_signed_request_error_kinds libW authW).2.1 (strB "a") (strB "AA")
     (by decide) (Or.inl rfl),
   (parse_signed_request_error_kinds libAlg authW).2.2.1 (strB "Bw") (strB "AA")
     [7] [0] [(strB "algorithm", .str (strB "MD5"))] (strB "MD5")
     (by decide) rfl rfl rfl rfl (by decide),
   (parse_signed_request_error_kinds libMismatch authW).2.2.2 (strB "Bw") (strB "AA")
     [7] [0] claimsW (strB "topsecret")
     (by decide) rfl rfl rfl rfl rfl (by decide) (by decide) (by decide)⟩

/-! ## Mutation of `app_secret` (C9) and `get_user_from_cookie` (C5, C10) -/

/-- C9 at the failing input: a successful `parse_signed_request` call rebinds
    `self.app_secret` from the `str` the instance was constructed with to its ASCII
    `bytes` encoding — the configuration is not left unchanged — and the rebound value
    has no `encode` attribute, so a second call on the same instance raises
    `AttributeError` under Python 3. -/
theorem parse_signed_request_mutates_app_secret :
    (Auth.parse_signed_request libW authW (strB "Bw" ++ 46 :: strB "AA")).2.app_secret =
      .bytes (strB "topsecret") ∧
    PyVal.bytes (strB "topsecret") ≠ authW.app_secret ∧
    (Auth.parse_signed_request libW authW (strB "Bw" ++ 46 :: strB "AA")).1 =
      .ok claimsW ∧
    pyEncodeAscii (PyVal.bytes (strB "topsecret")) = .error .attributeError :=
  ⟨rfl, by decide, rfl, rfl⟩

/-- C10: with `validate` left at its default `False`, a present cookie whose signed
    payload parses to a non-empty mapping drives `get_user_from_cookie` into
    `user_data.update(result)` with the local `result` never assigned — the call raises
    `UnboundLocalError` instead of returning the decoded data. -/
theorem get_user_from_cookie_unbound_local (lib : Stdlib)
    (exchange : PyVal → Except Unit Dict) (auth : Auth) (cookies : List (Bytes × Bytes))
    (cookie : Bytes) (user_data : Dict) (auth' : Auth)
    (hc : assocGet? cookies (strB "fbsr_" ++ auth.app_id) = some cookie)
    (hne : cookie ≠ [])
    (hp : Auth.parse_signed_request lib auth cookie = (.ok user_data, auth'))
    (hud : user_data ≠ []) :
    (Auth.get_user_from_cookie lib exchange auth cookies false).1 =
      .raised .unboundLocalError := by
  have hcne : cookie.isEmpty = false := by
    cases cookie with
    | nil => exact absurd rfl hne
    | cons a l => rfl
  have hudne : user_data.isEmpty = false := by
    cases user_data with
    | nil => exact absurd rfl hud
    | cons a l => rfl
  simp only [Auth.get_user_from_cookie, hc, Option.getD_some, hcne, Bool.false_eq_true,
    if_false, hp, hudne, ite_false, reduceIte]

/-- The network exchange oracle fixture: every code exchanges to
    `\x7b"access_token": "tok"\x7d`. -/
def resultW : Dict := [(strB "access_token", .str (strB "tok"))]

/-- Exchange oracle returning `resultW` for every code. -/
def exchangeW : PyVal → Except Unit Dict := fun _ => .ok resultW

/-- Cookie jar fixture holding `fbsr_123 = "Bw.AA"`. -/
def cookiesW : List (Bytes × Bytes) := [(strB "fbsr_123", strB "Bw.AA")]

/-- Claims fixture for the cookie flow: algorithm, an OAuth code, and a user id. -/
def claimsC5 : Dict :=
  [(strB "algorithm", .str (strB "HMAC-SHA256")),
   (strB "code", .str (strB "abc")),
   (strB "user_id", .str (strB "42"))]

/-- Oracle fixture whose parsed payload is `claimsC5`. -/
def libC5 : Stdlib :=
  { hmacSha256 := fun _ _ => [7], jsonLoads := fun _ => some claimsC5 }

/-- Witness for C10: the concrete cookie jar, parsed by the concrete oracles, raises
    `UnboundLocalError` under the default `validate=False`. -/
theorem get_user_from_cookie_unbound_local_witness :
    (Auth.get_user_from_cookie libW exchangeW authW cookiesW false).1 =
      .raised .unboundLocalError :=
  get_user_from_cookie_unbound_local libW exchangeW authW cookiesW (strB "Bw.AA")
    claimsW { authW with app_secret := .bytes (strB "topsecret") } rfl (by decide) rfl
    (by decide)

/-- C5 counterexample: on a present, verified cookie whose payload carries `user_id`,
    `get_user_from_cookie(..., validate=True)` returns only the exchange result — the
    merged mapping (which would retain `user_id`) is computed into a local and
    discarded, so the returned mapping is not the merge of payload and exchange
    fields. -/
theorem get_user_from_cookie_merge_counterexample :
    (Auth.get_user_from_cookie libC5 exchangeW authW cookiesW true).1 =
      .ret (some resultW) ∧
    resultW ≠ dictUpdate claimsC5 resultW ∧
    dictGet? (dictUpdate claimsC5 resultW) (strB "user_id") = some (.str (strB "42")) ∧
    dictGet? resultW (strB "user_id") = none :=
  ⟨rfl, by decide, rfl, rfl⟩

/-- C5 as amended.  With validation requested, `get_user_from_cookie` returns `None`
    when the `fbsr_{appId}` cookie is absent or empty, returns `None` when the
    code-for-token exchange fails, and on success returns the token-exchange result
    mapping alone (the decoded payload's fields are merged into a local that is
    discarded, not into the returned value). -/
theorem get_user_from_cookie_validate (lib : Stdlib)
    (exchange : PyVal → Except Unit Dict) (auth : Auth)
    (cookies : List (Bytes × Bytes)) :
    ((assocGet? cookies (strB "fbsr_" ++ auth.app_id)).getD [] = [] →
      (Auth.get_user_from_cookie lib exchange auth cookies true).1 = .ret none) ∧
    (∀ cookie user_data auth' codeVal,
      assocGet? cookies (strB "fbsr_" ++ auth.app_id) = some cookie → cookie ≠ [] →
      Auth.parse_signed_request lib auth cookie = (.ok user_data, auth') →
      user_data ≠ [] →
      dictGet? user_data (strB "code") = some codeVal →
      ((exchange codeVal = .error () →
        (Auth.get_user_from_cookie lib exchange auth cookies true).1 = .ret none) ∧
       (∀ result, exchange codeVal = .ok result →
        (Auth.get_user_from_cookie lib exchange auth cookies true).1 =
          .ret (some result)))) := by
  constructor
  · intro habsent
    have : ((assocGet? cookies (strB "fbsr_" ++ auth.app_id)).getD []).isEmpty = true := by
      rw [habsent]; rfl
    simp only [Auth.get_user_from_cookie, this, if_true, ite_true, reduceIte]
  · intro cookie user_data auth' codeVal hc hne hp hud hcode
    have hcne : cookie.isEmpty = false := by
      cases cookie with
      | nil => exact absurd rfl hne
      | cons a l => rfl
    have hudne : user_data.isEmpty = false := by
      cases user_data with
      | nil => exact absurd rfl hud
      | cons a l => rfl
    constructor
    · intro hex
      simp only [Auth.get_user_from_cookie, hc, Option.getD_some, hcne,
        Bool.false_eq_true, if_false, hp, hudne, ite_false, reduceIte, hcode, hex]
    · intro result hex
      simp only [Auth.get_user_from_cookie, hc, Option.getD_some, hcne,
        Bool.false_eq_true, if_false, hp, hudne, ite_false, reduceIte, hcode, hex]

/-- Witness for the amended C5: on the concrete fixtures, an empty cookie jar returns
    `None`, a failing exchange returns `None`, and a succeeding exchange returns exactly
    the exchange result. -/
theorem get_user_from_cookie_validate_witness :
    (Auth.get_user_from_cookie libC5 exchangeW authW [] true).1 = .ret none ∧
    (Auth.get_user_from_cookie libC5 (fun _ => .error ()) authW cookiesW true).1 =
      .ret none ∧
    (Auth.get_user_from_cookie libC5 exchangeW authW cookiesW true).1 =
      .ret (some resultW) :=
  ⟨(get_user_from_cookie_validate libC5 exchangeW authW []).1 rfl,
   ((get_user_from_cookie_validate libC5 (fun _ => .error ()) authW cookiesW).2
     (strB "Bw.AA") claimsC5 { authW with app_secret := .bytes (strB "topsecret") }
     (.str (strB "abc")) rfl (by decide) rfl (by decide) rfl).1 rfl,
   ((get_user_from_cookie_validate libC5 exchangeW authW cookiesW).2
     (strB "Bw.AA") claimsC5 { authW with app_secret := .bytes (strB "topsecret") }
     (.str (strB "abc")) rfl (by decide) rfl (by decide) rfl).2 resultW rfl⟩

/-! ## Redirect URI (C4), `get_objects` (C3), `put_object` (C7), response errors
    (C8, C6) -/

/-- C4 at the failing input: `Auth.__init__` stores every redirect URI verbatim — the
    bare-authority URI `http://localhost.dev` is not normalized to
    `http://localhost.dev/` (no path segment is ever appended; the `get_auth_url`
    method the repository's own normalization tests call does not exist, and `auth_url`
    takes the redirect target as its `canvas_url` parameter without consulting
    `self.redirect_uri`). -/
theorem auth_init_stores_redirect_uri_verbatim :
    (∀ app_id app_secret uri : Bytes,
      (Auth.init app_id app_secret uri).redirect_uri = uri) ∧
    (Auth.init (strB "123") (strB "secret")
        (strB "http://localhost.dev")).redirect_uri = strB "http://localhost.dev" ∧
    strB "http://localhost.dev" ≠ strB "http://localhost.dev/" :=
  ⟨fun _ _ _ => rfl, rfl, by decide⟩

/-- A client with no access token, at version 2.2. -/
def gNoToken : GraphAPI :=
  { access_token := .nil, timeout := .nil, version := strB "v2.2" }

/-- C3 at the failing input: `get_objects(["a", "b"])` passes its argument dictionary as
    the `path` positional of `request`, so the issued GET carries no `ids` query
    parameter at all — the dictionary's repr is formatted into the URL path instead. -/
theorem get_objects_ids_not_in_params :
    (GraphAPI.get_objects_request gNoToken [strB "a", strB "b"] []).params = [] ∧
    dictGet? (GraphAPI.get_objects_request gNoToken [strB "a", strB "b"] []).params
      (strB "ids") = none ∧
    (GraphAPI.get_objects_request gNoToken [strB "a", strB "b"] []).url =
      strB "https://graph.facebook.com/v2.2/" ++
        pyStr (.dict [(strB "ids", .str (strB "a,b"))]) ∧
    (GraphAPI.get_objects_request gNoToken [strB "a", strB "b"] []).method =
      strB "GET" :=
  ⟨rfl, rfl, by decide, rfl⟩

/-- C7: on a client constructed without an access token (`None`), `put_object` fails
    with `AssertionError` for every parent object, connection name, and data — the
    `Except.error` outcome carries no `RequestSpec`, so no network call is built. -/
theorem put_object_requires_access_token (timeout : PyVal) (version : Bytes)
    (g : GraphAPI) (hinit : GraphAPI.init .nil timeout version = .ok g)
    (parent connection : Bytes) (data : Dict) :
    g.put_object parent connection data = .error .assertionError := by
  have htok : g.access_token = .nil := by
    unfold GraphAPI.init at hinit
    split at hinit
    · cases hinit; rfl
    · cases hinit
  simp [GraphAPI.put_object, htok, pyTruthy]

/-- Witness for C7: the concrete tokenless client rejects a concrete write. -/
theorem put_object_requires_access_token_witness :
    gNoToken.put_object (strB "me") (strB "feed") [] = .error .assertionError :=
  put_object_requires_access_token .nil (strB "2.2") gNoToken rfl (strB "me")
    (strB "feed") []

/-- C8: whenever the classified result of a response is a mapping with a truthy `error`
    entry, `request` raises `GraphAPIError` with that mapping as payload — for every
    response, so in particular also when the HTTP status indicates success (the status
    is never consulted). -/
theorem request_raises_on_error_key (response : HttpResponse) (d : Dict)
    (hclass : GraphAPI.classify response = .ok (.dict d))
    (herr : pyTruthy (dictGetD d (strB "error") .nil) = true) :
    GraphAPI.request_handle response = .apiError (GraphAPIError.init (.dict d)) := by
  have hne : pyTruthy (.dict d) = true := by
    cases d with
    | nil => simp [dictGetD, dictGet?, assocGet?, pyTruthy] at herr
    | cons a l => rfl
  simp [GraphAPI.request_handle, hclass, hne, herr]

/-- A 200 JSON response whose body reports an in-band error. -/
def respW : HttpResponse :=
  { status := 200
    contentType := strB "application/json"
    jsonBody := some (.dict [(strB "error", .dict [(strB "message", .str (strB "x"))])])
    content := []
    url := []
    textQS := [] }

/-- Witness for C8: the concrete 200-status JSON response with an `error` body raises
    `GraphAPIError` carrying that body. -/
theorem request_raises_on_error_key_witness :
    GraphAPI.request_handle respW =
      .apiError (GraphAPIError.init
        (.dict [(strB "error", .dict [(strB "message", .str (strB "x"))])])) :=
  request_raises_on_error_key respW
    [(strB "error", .dict [(strB "message", .str (strB "x"))])] rfl rfl

/-- C6 counterexample: on the payload mapping `\x7b"foo": "bar"\x7d`, which matches no
    error key, the constructed `message` is the payload mapping itself — not the
    stringified payload the claim describes. -/
theorem graphapierror_message_not_stringified :
    (GraphAPIError.init (.dict [(strB "foo", .str (strB "bar"))])).message =
      .dict [(strB "foo", .str (strB "bar"))] ∧
    (GraphAPIError.init (.dict [(strB "foo", .str (strB "bar"))])).message ≠
      .str (pyStr (.dict [(strB "foo", .str (strB "bar"))])) :=
  ⟨rfl, by decide⟩

/-- The amended claim's message rule, stated from its words: take
    `result["error_description"]` when that lookup succeeds, else
    `result["error"]["message"]`, else `result["error_msg"]`, else fall back to the
    entire payload value itself. -/
def specMessage (result : PyVal) : PyVal :=
  (((tryItem result (strB "error_description")).orElse
      (fun _ => (tryItem result (strB "error")).bind
        (fun e => tryItem e (strB "message")))).orElse
    (fun _ => tryItem result (strB "error_msg"))).getD result

/-- The amended claim's type rule: `result["error_code"]` when present, else `""`. -/
def specType (result : PyVal) : PyVal :=
  (tryItem result (strB "error_code")).getD (.str [])

/-- C6 as amended: `GraphAPIError` construction extracts the message by trying, in
    order and stopping at the first lookup that succeeds, `error_description`, then
    `error.message`, then `error_msg`, else falls back to the entire payload value
    itself (unstringified); `type` is `error_code` when present, else the empty
    string. -/
theorem graphapierror_extraction (result : PyVal) :
    GraphAPIError.init result =
      { result := result, type := specType result, message := specMessage result } := by
  unfold GraphAPIError.init specMessage specType
  have htype : (match tryItem result (strB "error_code") with
      | some v => v
      | none => PyVal.str []) = (tryItem result (strB "error_code")).getD (.str []) := by
    cases tryItem result (strB "error_code") <;> rfl
  cases h2 : tryItem result (strB "error_description") with
  | some m => simp [h2, Option.orElse, htype]
  | none =>
    cases h3 : tryItem result (strB "error") with
    | none =>
      cases h4 : tryItem result (strB "error_msg") <;>
        simp [h2, h3, h4, Option.orElse, Option.bind, htype]
    | some e =>
      cases h5 : tryItem e (strB "message") <;>
        cases h4 : tryItem result (strB "error_msg") <;>
          simp [h2, h3, h4, h5, Option.orElse, Option.bind, htype]

end Facebook2
